import Mathlib

/-!
Verification of the dbx redis-py SDK (`client.py` and `clients/string.py`).

The SDK is a thin HTTP client: `DbxClient._request` issues one HTTP request,
raises a single wrapped error on any transport or HTTP failure, parses a JSON
body (or returns `None` for an empty body), and `StringClient` translates the
string-type operations (get, set, delete, info, batch_get, batch_set) into
requests and extracts fields from the parsed response.

The embedding models JSON values, Python truthiness, Python dict `.get`, and
the network as a function from the outgoing wire request to an outcome
(a raised exception or an HTTP response with status and parsed body).
Python `None` is identified with JSON `null` in results.
-/

namespace Dbx

/-- A parsed JSON value, as returned by `response.json()`. An object is a list
of fields in order; `Json.null` also stands for Python `None`. -/
inductive Json where
  | null : Json
  | bool : Bool → Json
  | num : Int → Json
  | str : String → Json
  | arr : List Json → Json
  | obj : List (String × Json) → Json
deriving Repr

/-- Python truthiness of a JSON value: `None`, `False`, `0`, `""`, `[]` and
`` empty dict `` are falsy, everything else truthy. -/
def Json.truthy : Json → Bool
  | .null => false
  | .bool b => b
  | .num n => n != 0
  | .str s => s != ""
  | .arr xs => !xs.isEmpty
  | .obj fs => !fs.isEmpty

/-- Truthiness of the value `_request` returns: `None` (empty body) is falsy,
otherwise the parsed body decides. -/
def pyTruthy : Option Json → Bool
  | none => false
  | some j => j.truthy

/-- First-match lookup of a field in a JSON object, as Python dict lookup. -/
def lookupField : List (String × Json) → String → Option Json
  | [], _ => none
  | (k, v) :: rest, key => if k = key then some v else lookupField rest key

/-- The original cause wrapped by the error `_request` raises: either the
exception of the underlying network call, or the HTTPError that
`raise_for_status` raises for a 4xx/5xx status. -/
inductive Cause where
  | networkException : String → Cause
  | httpError : Nat → Cause
deriving Repr, DecidableEq

/-- The errors the SDK can raise. `requestError` is the single wrapped error
raised by `DbxClient._request` (`RuntimeError("Request failed: ...") from e`
in the source); `attributeError` models Python's AttributeError raised when
`.get` is called on a value that is not a dict. -/
inductive DbxError where
  | requestError : Cause → DbxError
  | attributeError : DbxError
deriving Repr, DecidableEq

/-- Python dict `.get(key, default)` applied to the value `_request` returned:
defined only when the value is a dict, otherwise AttributeError. -/
def pyDictGet (response : Option Json) (key : String) (dflt : Json) :
    Except DbxError Json :=
  match response with
  | some (Json.obj fields) => .ok ((lookupField fields key).getD dflt)
  | _ => .error .attributeError

/-- The full outgoing HTTP request, as passed to `requests.request`. -/
structure WireRequest where
  method : String
  url : String
  timeout : Option Int
  headers : List (String × String)
  jsonBody : Option Json

/-- Outcome of the underlying network call `requests.request`: either it
raises a `requests.RequestException`, or it produces a response with a status
code and a parsed body (`none` when the response content is empty). -/
inductive NetOutcome where
  | exn : String → NetOutcome
  | response : Nat → Option Json → NetOutcome

/-- The network, modelled as a function from the wire request to its outcome. -/
abbrev Net := WireRequest → NetOutcome

/-- Python `s.rstrip("/")`: remove every trailing `/` character. -/
def pyRstripSlash (s : String) : String :=
  String.mk ((s.data.reverse.dropWhile (fun c => c = '/')).reverse)

/-- The transport configuration held by `DbxClient`. -/
structure DbxClient where
  base_url : String
  timeout : Option Int
  headers : List (String × String)

/-- `DbxClient.__init__`: stores the base URL with trailing slashes stripped,
the timeout and the headers. -/
def DbxClient.make (base_url : String) (timeout : Option Int)
    (headers : List (String × String)) : DbxClient :=
  { base_url := pyRstripSlash base_url, timeout := timeout, headers := headers }

/-- The body of the `try` in `DbxClient._request` after the response came back,
together with the `except requests.RequestException` handler:
`raise_for_status` raises for a 4xx/5xx status, which the handler wraps, as it
wraps an exception of the call itself; otherwise a non-empty body is parsed
and returned and an empty body yields `None`. -/
def requestHandle : NetOutcome → Except DbxError (Option Json)
  | .exn msg => .error (.requestError (.networkException msg))
  | .response status body =>
      if 400 ≤ status ∧ status < 600 then
        .error (.requestError (.httpError status))
      else
        .ok body

/-- `DbxClient._request`: builds the URL from the stored base URL and the
path, issues the request with the stored timeout and headers, and handles the
outcome. -/
def DbxClient._request (c : DbxClient) (net : Net) (method path : String)
    (jsonBody : Option Json) : Except DbxError (Option Json) :=
  requestHandle (net { method := method, url := c.base_url ++ path,
                       timeout := c.timeout, headers := c.headers,
                       jsonBody := jsonBody })

/-- The JSON body `StringClient.set` builds: `{"value": value}`, with a
`"ttl"` field added exactly when a ttl was given. -/
def setBody (value : String) (ttl : Option Int) : Json :=
  Json.obj (("value", Json.str value) ::
    (match ttl with
     | some t => [("ttl", Json.num t)]
     | none => []))

/-- `StringClient.get`: GET on the key path, then
`response.get("value") if response else None`. -/
def StringClient.get (c : DbxClient) (net : Net) (key : String) :
    Except DbxError Json :=
  match DbxClient._request c net "GET" ("/redis/string/" ++ key) none with
  | .error e => .error e
  | .ok response =>
      if pyTruthy response then pyDictGet response "value" Json.null
      else .ok Json.null

/-- `StringClient.set`: POST on the key path with the body built by
`setBody`; the response value is discarded. -/
def StringClient.set (c : DbxClient) (net : Net) (key value : String)
    (ttl : Option Int) : Except DbxError Unit :=
  match DbxClient._request c net "POST" ("/redis/string/" ++ key)
      (some (setBody value ttl)) with
  | .error e => .error e
  | .ok _ => .ok ()

/-- `StringClient.delete`: DELETE on the key path, then
`response.get("deleted", False) if response else False`. -/
def StringClient.delete (c : DbxClient) (net : Net) (key : String) :
    Except DbxError Json :=
  match DbxClient._request c net "DELETE" ("/redis/string/" ++ key) none with
  | .error e => .error e
  | .ok response =>
      if pyTruthy response then pyDictGet response "deleted" (Json.bool false)
      else .ok (Json.bool false)

/-- `StringClient.info`: GET on the key's `/info` sub-path, then
`response if response else None`. -/
def StringClient.info (c : DbxClient) (net : Net) (key : String) :
    Except DbxError Json :=
  match DbxClient._request c net "GET" ("/redis/string/" ++ key ++ "/info")
      none with
  | .error e => .error e
  | .ok response =>
      if pyTruthy response then .ok (response.getD Json.null)
      else .ok Json.null

/-- `StringClient.batch_get`: POST on the batch_get path with body
`{"keys": keys}`, then `response.get("values", []) if response else []`. -/
def StringClient.batch_get (c : DbxClient) (net : Net) (keys : List String) :
    Except DbxError Json :=
  match DbxClient._request c net "POST" "/redis/string/batch_get"
      (some (Json.obj [("keys", Json.arr (keys.map Json.str))])) with
  | .error e => .error e
  | .ok response =>
      if pyTruthy response then pyDictGet response "values" (Json.arr [])
      else .ok (Json.arr [])

/-- `StringClient.batch_set`: POST on the batch_set path with body
`{"operations": operations}`; the response value is discarded. -/
def StringClient.batch_set (c : DbxClient) (net : Net)
    (operations : List Json) : Except DbxError Unit :=
  match DbxClient._request c net "POST" "/redis/string/batch_set"
      (some (Json.obj [("operations", Json.arr operations)])) with
  | .error e => .error e
  | .ok _ => .ok ()

/-- The wire request `get key` sends. -/
def getWire (c : DbxClient) (key : String) : WireRequest :=
  { method := "GET", url := c.base_url ++ ("/redis/string/" ++ key),
    timeout := c.timeout, headers := c.headers, jsonBody := none }

/-- The wire request `set key value ttl` sends. -/
def setWire (c : DbxClient) (key value : String) (ttl : Option Int) :
    WireRequest :=
  { method := "POST", url := c.base_url ++ ("/redis/string/" ++ key),
    timeout := c.timeout, headers := c.headers,
    jsonBody := some (setBody value ttl) }

/-- The wire request `delete key` sends. -/
def deleteWire (c : DbxClient) (key : String) : WireRequest :=
  { method := "DELETE", url := c.base_url ++ ("/redis/string/" ++ key),
    timeout := c.timeout, headers := c.headers, jsonBody := none }

/-- The wire request `info key` sends. -/
def infoWire (c : DbxClient) (key : String) : WireRequest :=
  { method := "GET", url := c.base_url ++ ("/redis/string/" ++ key ++ "/info"),
    timeout := c.timeout, headers := c.headers, jsonBody := none }

/-- The wire request `batch_get keys` sends. -/
def batchGetWire (c : DbxClient) (keys : List String) : WireRequest :=
  { method := "POST", url := c.base_url ++ "/redis/string/batch_get",
    timeout := c.timeout, headers := c.headers,
    jsonBody := some (Json.obj [("keys", Json.arr (keys.map Json.str))]) }

/-- The wire request `batch_set operations` sends. -/
def batchSetWire (c : DbxClient) (operations : List Json) : WireRequest :=
  { method := "POST", url := c.base_url ++ "/redis/string/batch_set",
    timeout := c.timeout, headers := c.headers,
    jsonBody := some (Json.obj [("operations", Json.arr operations)]) }

/-- The cause of failure a network outcome carries, if any: a network
exception always fails, a response fails exactly when `raise_for_status`
raises, i.e. on a 4xx/5xx status. -/
def outcomeFailure : NetOutcome → Option Cause
  | .exn msg => some (.networkException msg)
  | .response status _ =>
      if 400 ≤ status ∧ status < 600 then some (.httpError status) else none

end Dbx

namespace Dbx

/-! ## Helper lemmas -/

theorem requestHandle_failure (o : NetOutcome) (e : Cause)
    (h : outcomeFailure o = some e) :
    requestHandle o = .error (.requestError e) := by
  cases o with
  | exn msg =>
      simp only [outcomeFailure, Option.some.injEq] at h
      simp [requestHandle, h]
  | response status body =>
      simp only [outcomeFailure] at h
      by_cases hs : 400 ≤ status ∧ status < 600
      · rw [if_pos hs] at h
        simp only [Option.some.injEq] at h
        simp [requestHandle, if_pos hs, h]
      · rw [if_neg hs] at h
        exact absurd h (Option.noConfusion)

theorem get_factor (c : DbxClient) (net : Net) (key : String) :
    StringClient.get c net key =
      match requestHandle (net (getWire c key)) with
      | .error e => .error e
      | .ok response =>
          if pyTruthy response then pyDictGet response "value" Json.null
          else .ok Json.null := rfl

theorem set_factor (c : DbxClient) (net : Net) (key value : String)
    (ttl : Option Int) :
    StringClient.set c net key value ttl =
      match requestHandle (net (setWire c key value ttl)) with
      | .error e => .error e
      | .ok _ => .ok () := rfl

theorem delete_factor (c : DbxClient) (net : Net) (key : String) :
    StringClient.delete c net key =
      match requestHandle (net (deleteWire c key)) with
      | .error e => .error e
      | .ok response =>
          if pyTruthy response then pyDictGet response "deleted" (Json.bool false)
          else .ok (Json.bool false) := rfl

theorem info_factor (c : DbxClient) (net : Net) (key : String) :
    StringClient.info c net key =
      match requestHandle (net (infoWire c key)) with
      | .error e => .error e
      | .ok response =>
          if pyTruthy response then .ok (response.getD Json.null)
          else .ok Json.null := rfl

theorem batch_get_factor (c : DbxClient) (net : Net) (keys : List String) :
    StringClient.batch_get c net keys =
      match requestHandle (net (batchGetWire c keys)) with
      | .error e => .error e
      | .ok response =>
          if pyTruthy response then pyDictGet response "values" (Json.arr [])
          else .ok (Json.arr []) := rfl

theorem batch_set_factor (c : DbxClient) (net : Net) (operations : List Json) :
    StringClient.batch_set c net operations =
      match requestHandle (net (batchSetWire c operations)) with
      | .error e => .error e
      | .ok _ => .ok () := rfl

end Dbx

namespace Dbx

/-! ## Claim theorems -/

/-- C1: For every operation (get, set, delete, info, batch_get, batch_set),
if the underlying network call fails (a network exception) or the server
responds with a non-success HTTP status (one that `raise_for_status` rejects),
the call returns exactly the single error kind `requestError` wrapping the
original cause; no other error kind escapes, and the result is determined by
the single network outcome, so no retry occurs. -/
theorem all_ops_requestError_on_failure (c : DbxClient) (net : Net) (e : Cause)
    (key value : String) (ttl : Option Int) (keys : List String)
    (operations : List Json) :
    (outcomeFailure (net (getWire c key)) = some e →
      StringClient.get c net key = .error (.requestError e)) ∧
    (outcomeFailure (net (setWire c key value ttl)) = some e →
      StringClient.set c net key value ttl = .error (.requestError e)) ∧
    (outcomeFailure (net (deleteWire c key)) = some e →
      StringClient.delete c net key = .error (.requestError e)) ∧
    (outcomeFailure (net (infoWire c key)) = some e →
      StringClient.info c net key = .error (.requestError e)) ∧
    (outcomeFailure (net (batchGetWire c keys)) = some e →
      StringClient.batch_get c net keys = .error (.requestError e)) ∧
    (outcomeFailure (net (batchSetWire c operations)) = some e →
      StringClient.batch_set c net operations = .error (.requestError e)) := by
  refine ⟨fun h => ?_, fun h => ?_, fun h => ?_, fun h => ?_, fun h => ?_,
    fun h => ?_⟩
  · rw [get_factor, requestHandle_failure _ _ h]
  · rw [set_factor, requestHandle_failure _ _ h]
  · rw [delete_factor, requestHandle_failure _ _ h]
  · rw [info_factor, requestHandle_failure _ _ h]
  · rw [batch_get_factor, requestHandle_failure _ _ h]
  · rw [batch_set_factor, requestHandle_failure _ _ h]

/-- Witness for C1: a network that always raises makes every operation return
the wrapped request error. -/
theorem all_ops_requestError_on_failure_witness :
    StringClient.get (DbxClient.make "http://h" none [])
        (fun _ => NetOutcome.exn "boom") "k" =
      .error (.requestError (.networkException "boom")) ∧
    StringClient.set (DbxClient.make "http://h" none [])
        (fun _ => NetOutcome.exn "boom") "k" "v" (some 7) =
      .error (.requestError (.networkException "boom")) ∧
    StringClient.delete (DbxClient.make "http://h" none [])
        (fun _ => NetOutcome.exn "boom") "k" =
      .error (.requestError (.networkException "boom")) ∧
    StringClient.info (DbxClient.make "http://h" none [])
        (fun _ => NetOutcome.exn "boom") "k" =
      .error (.requestError (.networkException "boom")) ∧
    StringClient.batch_get (DbxClient.make "http://h" none [])
        (fun _ => NetOutcome.exn "boom") ["k"] =
      .error (.requestError (.networkException "boom")) ∧
    StringClient.batch_set (DbxClient.make "http://h" none [])
        (fun _ => NetOutcome.exn "boom") [] =
      .error (.requestError (.networkException "boom")) := by
  have h := all_ops_requestError_on_failure (DbxClient.make "http://h" none [])
    (fun _ => NetOutcome.exn "boom") (.networkException "boom") "k" "v"
    (some 7) ["k"] []
  exact ⟨h.1 rfl, h.2.1 rfl, h.2.2.1 rfl, h.2.2.2.1 rfl, h.2.2.2.2.1 rfl,
    h.2.2.2.2.2 rfl⟩

/-- C2: when the transport returns `None` (empty response body, success
status), every extraction defaults to its fallback without raising: `get`
returns `None`, `delete` returns `False`, `info` returns `None`, and
`batch_get` returns the empty list. -/
theorem empty_body_fallbacks (c : DbxClient) (net : Net) (key : String)
    (keys : List String) (h : ∀ r, net r = NetOutcome.response 200 none) :
    StringClient.get c net key = .ok Json.null ∧
    StringClient.delete c net key = .ok (Json.bool false) ∧
    StringClient.info c net key = .ok Json.null ∧
    StringClient.batch_get c net keys = .ok (Json.arr []) := by
  refine ⟨?_, ?_, ?_, ?_⟩
  · rw [get_factor, h]; rfl
  · rw [delete_factor, h]; rfl
  · rw [info_factor, h]; rfl
  · rw [batch_get_factor, h]; rfl

/-- Witness for C2 at a concrete client, key and keys list. -/
theorem empty_body_fallbacks_witness :
    StringClient.get (DbxClient.make "http://h" none [])
        (fun _ => NetOutcome.response 200 none) "k" = .ok Json.null ∧
    StringClient.delete (DbxClient.make "http://h" none [])
        (fun _ => NetOutcome.response 200 none) "k" = .ok (Json.bool false) ∧
    StringClient.info (DbxClient.make "http://h" none [])
        (fun _ => NetOutcome.response 200 none) "k" = .ok Json.null ∧
    StringClient.batch_get (DbxClient.make "http://h" none [])
        (fun _ => NetOutcome.response 200 none) ["a", "b"] =
      .ok (Json.arr []) :=
  empty_body_fallbacks (DbxClient.make "http://h" none [])
    (fun _ => NetOutcome.response 200 none) "k" ["a", "b"] (fun _ => rfl)

end Dbx

namespace Dbx

/-- C3: `set key value (some t)` depends on the network only through the one
wire request it sends: a POST on the key path whose JSON body is exactly the
object with fields `value` and `ttl`; with ttl absent the body is exactly the
object with the single field `value` and no ttl field. -/
theorem set_sends_exact_body (c : DbxClient) (net : Net) (key value : String)
    (t : Int) :
    (StringClient.set c net key value (some t) =
      match requestHandle (net
          { method := "POST", url := c.base_url ++ ("/redis/string/" ++ key),
            timeout := c.timeout, headers := c.headers,
            jsonBody := some (Json.obj
              [("value", Json.str value), ("ttl", Json.num t)]) }) with
      | .error e => .error e
      | .ok _ => .ok ()) ∧
    (StringClient.set c net key value none =
      match requestHandle (net
          { method := "POST", url := c.base_url ++ ("/redis/string/" ++ key),
            timeout := c.timeout, headers := c.headers,
            jsonBody := some (Json.obj [("value", Json.str value)]) }) with
      | .error e => .error e
      | .ok _ => .ok ()) :=
  ⟨rfl, rfl⟩

/-- C4: `batch_get keys` sends a POST on the batch_get path with JSON body
exactly the object with the single field `keys`, and when the response body is
the object with a `values` field, it returns that field's list unchanged
(order preserved, `null` entries passed through as-is). -/
theorem batch_get_sends_and_passes_through (c : DbxClient) (net : Net)
    (keys : List String) (vs : List Json)
    (h : net (batchGetWire c keys) =
      NetOutcome.response 200 (some (Json.obj [("values", Json.arr vs)]))) :
    StringClient.batch_get c net keys = .ok (Json.arr vs) ∧
    (∀ net' : Net, StringClient.batch_get c net' keys =
      match requestHandle (net'
          { method := "POST", url := c.base_url ++ "/redis/string/batch_get",
            timeout := c.timeout, headers := c.headers,
            jsonBody := some (Json.obj
              [("keys", Json.arr (keys.map Json.str))]) }) with
      | .error e => .error e
      | .ok response =>
          if pyTruthy response then pyDictGet response "values" (Json.arr [])
          else .ok (Json.arr [])) := by
  constructor
  · rw [batch_get_factor, h]
    rfl
  · intro net'
    exact batch_get_factor c net' keys

/-- Witness for C4: the mocked response of the unit test,
values `["val1", "val2", null]`, comes back unchanged. -/
theorem batch_get_sends_and_passes_through_witness :
    StringClient.batch_get (DbxClient.make "http://localhost:8080" none [])
        (fun _ => NetOutcome.response 200 (some (Json.obj [("values",
          Json.arr [Json.str "val1", Json.str "val2", Json.null])])))
        ["key1", "key2", "key3"] =
      .ok (Json.arr [Json.str "val1", Json.str "val2", Json.null]) :=
  (batch_get_sends_and_passes_through
    (DbxClient.make "http://localhost:8080" none [])
    (fun _ => NetOutcome.response 200 (some (Json.obj [("values",
      Json.arr [Json.str "val1", Json.str "val2", Json.null])])))
    ["key1", "key2", "key3"]
    [Json.str "val1", Json.str "val2", Json.null] rfl).1

/-- C5: `delete key` sends a DELETE on the key path, and when the response
carries a boolean `deleted` field it returns that boolean; in particular a
success response with body containing `deleted = true` yields `true`. -/
theorem delete_returns_deleted_field (c : DbxClient) (net : Net)
    (key : String) (b : Bool)
    (h : net (deleteWire c key) =
      NetOutcome.response 200 (some (Json.obj [("deleted", Json.bool b)]))) :
    StringClient.delete c net key = .ok (Json.bool b) ∧
    (∀ net' : Net, StringClient.delete c net' key =
      match requestHandle (net'
          { method := "DELETE", url := c.base_url ++ ("/redis/string/" ++ key),
            timeout := c.timeout, headers := c.headers,
            jsonBody := none }) with
      | .error e => .error e
      | .ok response =>
          if pyTruthy response then pyDictGet response "deleted" (Json.bool false)
          else .ok (Json.bool false)) := by
  constructor
  · rw [delete_factor, h]
    rfl
  · intro net'
    exact delete_factor c net' key

/-- Witness for C5: the unit-test scenario, HTTP 200 with body containing
`deleted = true` for DELETE on testkey, makes `delete` return `true`. -/
theorem delete_returns_deleted_field_witness :
    StringClient.delete (DbxClient.make "http://localhost:8080" none [])
        (fun _ => NetOutcome.response 200
          (some (Json.obj [("deleted", Json.bool true)]))) "testkey" =
      .ok (Json.bool true) :=
  (delete_returns_deleted_field
    (DbxClient.make "http://localhost:8080" none [])
    (fun _ => NetOutcome.response 200
      (some (Json.obj [("deleted", Json.bool true)])))
    "testkey" true rfl).1

end Dbx

namespace Dbx

/-- A stateful model of a server for the round-trip property: a POST whose
body carries a `value` field stores that value under the request URL and
answers with an empty body; a GET answers with the stored value (or `null`)
in a `value` field. -/
def modelServer (st : List (String × Json)) (r : WireRequest) :
    List (String × Json) × NetOutcome :=
  if r.method = "POST" then
    match r.jsonBody with
    | some (Json.obj fields) =>
        match lookupField fields "value" with
        | some v => ((r.url, v) :: st, NetOutcome.response 200 none)
        | none => (st, NetOutcome.response 400 none)
    | _ => (st, NetOutcome.response 400 none)
  else if r.method = "GET" then
    match lookupField st r.url with
    | some v =>
        (st, NetOutcome.response 200 (some (Json.obj [("value", v)])))
    | none =>
        (st, NetOutcome.response 200 (some (Json.obj [("value", Json.null)])))
  else (st, NetOutcome.response 200 none)

/-- C6: against a transport model where the server stores the value posted by
`set` and serves it back as the `value` field, `set key value` succeeds and a
following `get key` returns exactly that value, for every client
configuration, key, value, ttl and prior server state. -/
theorem set_then_get_roundtrip (base key value : String) (timeout : Option Int)
    (headers : List (String × String)) (ttl : Option Int)
    (st : List (String × Json)) :
    StringClient.set (DbxClient.make base timeout headers)
      (fun r => (modelServer st r).2) key value ttl = .ok () ∧
    StringClient.get (DbxClient.make base timeout headers)
      (fun r => (modelServer ((modelServer st
          (setWire (DbxClient.make base timeout headers) key value ttl)).1)
        r).2) key = .ok (Json.str value) := by
  constructor
  · rw [set_factor]
    simp [setWire, modelServer, setBody, lookupField, requestHandle]
  · rw [get_factor]
    simp [getWire, setWire, modelServer, setBody, lookupField, requestHandle,
      pyTruthy, Json.truthy, pyDictGet]

end Dbx

namespace Dbx

theorem head?_dropWhile {α : Type} (p : α → Bool) (l : List α) (a : α)
    (h : (l.dropWhile p).head? = some a) : p a = false := by
  induction l with
  | nil => simp [List.dropWhile] at h
  | cons x xs ih =>
      rw [List.dropWhile_cons] at h
      by_cases hp : p x = true
      · rw [if_pos hp] at h
        exact ih h
      · rw [if_neg hp] at h
        simp only [List.head?, Option.some.injEq] at h
        subst h
        exact Bool.eq_false_iff.mpr hp

theorem pyRstripSlash_no_trailing (s : String) :
    (pyRstripSlash s).data.getLast? ≠ some '/' := by
  intro h
  unfold pyRstripSlash at h
  rw [List.getLast?_reverse] at h
  have := head?_dropWhile (fun c => c = '/') s.data.reverse '/' h
  simp at this

/-- C7: the stored base URL has no trailing slash (every trailing slash is
stripped at construction), and every request `_request` issues goes to the
URL that is exactly the stored base URL with the operation's path appended,
carrying the stored timeout and headers. -/
theorem base_url_invariant (base path method : String) (timeout : Option Int)
    (headers : List (String × String)) (net : Net) (body : Option Json) :
    (DbxClient.make base timeout headers).base_url.data.getLast? ≠ some '/' ∧
    DbxClient._request (DbxClient.make base timeout headers) net method path
        body =
      requestHandle (net
        { method := method,
          url := (DbxClient.make base timeout headers).base_url ++ path,
          timeout := timeout, headers := headers, jsonBody := body }) :=
  ⟨pyRstripSlash_no_trailing base, rfl⟩

end Dbx

namespace Dbx

/-- C8: on a successful response whose parsed body is a non-empty JSON object
lacking the expected field, the facade falls back silently: `get` returns
`None` when `value` is absent, `delete` returns `False` when `deleted` is
absent, and `batch_get` returns the empty list when `values` is absent. -/
theorem missing_field_fallbacks (c : DbxClient) (net : Net) (key : String)
    (keys : List String) (fs : List (String × Json))
    (hne : fs ≠ [])
    (hget : net (getWire c key) = NetOutcome.response 200 (some (Json.obj fs)))
    (hdel : net (deleteWire c key) =
      NetOutcome.response 200 (some (Json.obj fs)))
    (hbat : net (batchGetWire c keys) =
      NetOutcome.response 200 (some (Json.obj fs)))
    (hv : lookupField fs "value" = none)
    (hd : lookupField fs "deleted" = none)
    (hvs : lookupField fs "values" = none) :
    StringClient.get c net key = .ok Json.null ∧
    StringClient.delete c net key = .ok (Json.bool false) ∧
    StringClient.batch_get c net keys = .ok (Json.arr []) := by
  refine ⟨?_, ?_, ?_⟩
  · rw [get_factor, hget]
    simp [requestHandle, pyTruthy, Json.truthy, hne, pyDictGet, hv]
  · rw [delete_factor, hdel]
    simp [requestHandle, pyTruthy, Json.truthy, hne, pyDictGet, hd]
  · rw [batch_get_factor, hbat]
    simp [requestHandle, pyTruthy, Json.truthy, hne, pyDictGet, hvs]

/-- Witness for C8 on the non-empty object with the single field `other`. -/
theorem missing_field_fallbacks_witness :
    StringClient.get (DbxClient.make "http://h" none [])
        (fun _ => NetOutcome.response 200
          (some (Json.obj [("other", Json.str "x")]))) "k" = .ok Json.null ∧
    StringClient.delete (DbxClient.make "http://h" none [])
        (fun _ => NetOutcome.response 200
          (some (Json.obj [("other", Json.str "x")]))) "k" =
      .ok (Json.bool false) ∧
    StringClient.batch_get (DbxClient.make "http://h" none [])
        (fun _ => NetOutcome.response 200
          (some (Json.obj [("other", Json.str "x")]))) ["a"] =
      .ok (Json.arr []) :=
  missing_field_fallbacks (DbxClient.make "http://h" none [])
    (fun _ => NetOutcome.response 200
      (some (Json.obj [("other", Json.str "x")])))
    "k" ["a"] [("other", Json.str "x")]
    (List.cons_ne_nil _ _) rfl rfl rfl rfl rfl rfl

/-- C9: on a successful response whose non-empty body parses to a falsy JSON
value (such as the empty object), `info` returns `None` instead of that body,
and `get`, `delete`, `batch_get` likewise return their fallbacks; each
operation returns exactly what it returns when the body is empty, so the
facade does not distinguish an empty body from a falsy parsed body. -/
theorem falsy_body_fallbacks (c : DbxClient) (net netE : Net) (key : String)
    (keys : List String) (j : Json)
    (hfalsy : j.truthy = false)
    (h : ∀ r, net r = NetOutcome.response 200 (some j))
    (hE : ∀ r, netE r = NetOutcome.response 200 none) :
    (StringClient.info c net key = .ok Json.null ∧
     StringClient.get c net key = .ok Json.null ∧
     StringClient.delete c net key = .ok (Json.bool false) ∧
     StringClient.batch_get c net keys = .ok (Json.arr [])) ∧
    (StringClient.info c net key = StringClient.info c netE key ∧
     StringClient.get c net key = StringClient.get c netE key ∧
     StringClient.delete c net key = StringClient.delete c netE key ∧
     StringClient.batch_get c net keys = StringClient.batch_get c netE keys) := by
  have hinfo : StringClient.info c net key = .ok Json.null := by
    rw [info_factor, h]
    simp [requestHandle, pyTruthy, hfalsy]
  have hget : StringClient.get c net key = .ok Json.null := by
    rw [get_factor, h]
    simp [requestHandle, pyTruthy, hfalsy]
  have hdel : StringClient.delete c net key = .ok (Json.bool false) := by
    rw [delete_factor, h]
    simp [requestHandle, pyTruthy, hfalsy]
  have hbat : StringClient.batch_get c net keys = .ok (Json.arr []) := by
    rw [batch_get_factor, h]
    simp [requestHandle, pyTruthy, hfalsy]
  have hinfoE : StringClient.info c netE key = .ok Json.null := by
    rw [info_factor, hE]
    rfl
  have hgetE : StringClient.get c netE key = .ok Json.null := by
    rw [get_factor, hE]
    rfl
  have hdelE : StringClient.delete c netE key = .ok (Json.bool false) := by
    rw [delete_factor, hE]
    rfl
  have hbatE : StringClient.batch_get c netE keys = .ok (Json.arr []) := by
    rw [batch_get_factor, hE]
    rfl
  exact ⟨⟨hinfo, hget, hdel, hbat⟩,
    ⟨hinfo.trans hinfoE.symm, hget.trans hgetE.symm, hdel.trans hdelE.symm,
     hbat.trans hbatE.symm⟩⟩

/-- Witness for C9 at the empty object body. -/
theorem falsy_body_fallbacks_witness :
    StringClient.info (DbxClient.make "http://h" none [])
        (fun _ => NetOutcome.response 200 (some (Json.obj []))) "k" =
      .ok Json.null ∧
    StringClient.get (DbxClient.make "http://h" none [])
        (fun _ => NetOutcome.response 200 (some (Json.obj []))) "k" =
      .ok Json.null ∧
    StringClient.delete (DbxClient.make "http://h" none [])
        (fun _ => NetOutcome.response 200 (some (Json.obj []))) "k" =
      .ok (Json.bool false) ∧
    StringClient.batch_get (DbxClient.make "http://h" none [])
        (fun _ => NetOutcome.response 200 (some (Json.obj []))) ["a"] =
      .ok (Json.arr []) :=
  (falsy_body_fallbacks (DbxClient.make "http://h" none [])
    (fun _ => NetOutcome.response 200 (some (Json.obj [])))
    (fun _ => NetOutcome.response 200 none)
    "k" ["a"] (Json.obj []) rfl (fun _ => rfl) (fun _ => rfl)).1

/-- C10: there is a successful response whose non-empty body parses to a
truthy JSON value that is not an object — here the non-empty array
containing the string x — on which `get`, `delete` and `batch_get` raise
(Python AttributeError from calling `.get` on a non-dict) instead of
returning a value or a fallback: field extraction is not total over all
JSON bodies. -/
theorem nondict_truthy_body_raises :
    StringClient.get (DbxClient.make "http://localhost:8080" none [])
        (fun _ => NetOutcome.response 200 (some (Json.arr [Json.str "x"])))
        "k" = .error DbxError.attributeError ∧
    StringClient.delete (DbxClient.make "http://localhost:8080" none [])
        (fun _ => NetOutcome.response 200 (some (Json.arr [Json.str "x"])))
        "k" = .error DbxError.attributeError ∧
    StringClient.batch_get (DbxClient.make "http://localhost:8080" none [])
        (fun _ => NetOutcome.response 200 (some (Json.arr [Json.str "x"])))
        ["k"] = .error DbxError.attributeError :=
  ⟨rfl, rfl, rfl⟩

end Dbx
